import Mathlib

/-
  Verification of the CueForge native audio core.

  Shallow embedding of the C++ sources under src/native/src:
  MatrixMixer.cpp, OutputPatch.cpp, AudioCue.cpp, AudioEngine.cpp,
  CommandProcessor.cpp.  Float arithmetic is idealised as real arithmetic;
  audio buffers are modelled as functions from channel and frame index to a
  sample value; `std::atomic` fields are plain state fields (single-threaded
  semantics of each operation); the JUCE file decoder is an external
  collaborator and is passed in as a function `String → Option AudioData`.
-/

namespace CueForge

noncomputable section

/-! ## MatrixMixer (MatrixMixer.cpp) -/

/-- dB→linear conversion, MatrixMixer.cpp lines 342-348:
`if (db <= -100.0f) return 0.0f; return std::pow(10.0f, db / 20.0f);` -/
def dbToGain (db : ℝ) : ℝ :=
  if db ≤ -100 then 0 else (10 : ℝ) ^ (db / 20)

/-- linear→dB conversion, MatrixMixer.cpp lines 350-356:
`if (gain <= 0.0f) return -100.0f; return 20.0f * std::log10(gain);` -/
def gainToDb (gain : ℝ) : ℝ :=
  if gain ≤ 0 then -100 else 20 * Real.logb 10 gain

/-- State of a `CueForge::MatrixMixer`.  The C++ object stores vectors of
atomics sized `numInputChannels` × `numOutputChannels`; we model the storage
as total functions (entries outside the valid range are never read by the
translated code, which guards every access).  Indices are `ℤ`, mirroring the
C++ `int` parameters, so that negative out-of-range indices are expressible.
`mainLevel` is initialised to 1 (unity) by its member initialiser. -/
structure MatrixMixer where
  numInputChannels : ℕ
  numOutputChannels : ℕ
  crosspoints : ℤ → ℤ → ℝ
  inputLevels : ℤ → ℝ
  outputLevels : ℤ → ℝ
  mainLevel : ℝ
  inputMutes : ℤ → Bool
  outputMutes : ℤ → Bool
  inputSolos : ℤ → Bool
  outputSolos : ℤ → Bool

/-- MatrixMixer.cpp lines 358-361. -/
def MatrixMixer.isValidInput (m : MatrixMixer) (input : ℤ) : Bool :=
  decide (0 ≤ input ∧ input < (m.numInputChannels : ℤ))

/-- MatrixMixer.cpp lines 363-366. -/
def MatrixMixer.isValidOutput (m : MatrixMixer) (output : ℤ) : Bool :=
  decide (0 ≤ output ∧ output < (m.numOutputChannels : ℤ))

/-- `MatrixMixer::setSize`, MatrixMixer.cpp lines 13-62: clamps the channel
counts at 0, zeroes every crosspoint, sets all level trims to unity and all
mutes/solos to false.  `mainLevel` is not touched. -/
def MatrixMixer.setSize (m : MatrixMixer) (numInputs numOutputs : ℤ) : MatrixMixer :=
  { numInputChannels := (max 0 numInputs).toNat
    numOutputChannels := (max 0 numOutputs).toNat
    crosspoints := fun _ _ => 0
    inputLevels := fun _ => 1
    outputLevels := fun _ => 1
    mainLevel := m.mainLevel
    inputMutes := fun _ => false
    outputMutes := fun _ => false
    inputSolos := fun _ => false
    outputSolos := fun _ => false }

/-- The `MatrixMixer(numInputs, numOutputs)` constructor, MatrixMixer.cpp
lines 7-11 (member initialisers then `setSize`). -/
def mkMatrixMixer (numInputs numOutputs : ℤ) : MatrixMixer :=
  MatrixMixer.setSize
    { numInputChannels := 0, numOutputChannels := 0
      crosspoints := fun _ _ => 0, inputLevels := fun _ => 1
      outputLevels := fun _ => 1, mainLevel := 1
      inputMutes := fun _ => false, outputMutes := fun _ => false
      inputSolos := fun _ => false, outputSolos := fun _ => false }
    numInputs numOutputs

/-- `MatrixMixer::setCrosspoint`, MatrixMixer.cpp lines 64-71: on valid
indices stores `dbToGain levelDb`, otherwise a no-op. -/
def MatrixMixer.setCrosspoint (m : MatrixMixer) (input output : ℤ) (levelDb : ℝ) :
    MatrixMixer :=
  if m.isValidInput input = true ∧ m.isValidOutput output = true then
    { m with crosspoints := fun i o =>
        if i = input ∧ o = output then dbToGain levelDb else m.crosspoints i o }
  else m

/-- `MatrixMixer::getCrosspoint`, MatrixMixer.cpp lines 73-81: on valid
indices reads the stored linear gain back through `gainToDb`, otherwise
returns the sentinel -100. -/
def MatrixMixer.getCrosspoint (m : MatrixMixer) (input output : ℤ) : ℝ :=
  if m.isValidInput input = true ∧ m.isValidOutput output = true then
    gainToDb (m.crosspoints input output)
  else -100

/-- `MatrixMixer::setInputLevel`, MatrixMixer.cpp lines 99-105. -/
def MatrixMixer.setInputLevel (m : MatrixMixer) (input : ℤ) (levelDb : ℝ) : MatrixMixer :=
  if m.isValidInput input = true then
    { m with inputLevels := fun i => if i = input then dbToGain levelDb else m.inputLevels i }
  else m

/-- `MatrixMixer::setOutputLevel`, MatrixMixer.cpp lines 107-113. -/
def MatrixMixer.setOutputLevel (m : MatrixMixer) (output : ℤ) (levelDb : ℝ) : MatrixMixer :=
  if m.isValidOutput output = true then
    { m with outputLevels := fun o => if o = output then dbToGain levelDb else m.outputLevels o }
  else m

/-- `MatrixMixer::setMainLevel`, MatrixMixer.cpp lines 115-118. -/
def MatrixMixer.setMainLevel (m : MatrixMixer) (levelDb : ℝ) : MatrixMixer :=
  { m with mainLevel := dbToGain levelDb }

/-- `MatrixMixer::getInputLevel`, MatrixMixer.cpp lines 120-125. -/
def MatrixMixer.getInputLevel (m : MatrixMixer) (input : ℤ) : ℝ :=
  if m.isValidInput input = true then gainToDb (m.inputLevels input) else -100

/-- `MatrixMixer::getOutputLevel`, MatrixMixer.cpp lines 127-132. -/
def MatrixMixer.getOutputLevel (m : MatrixMixer) (output : ℤ) : ℝ :=
  if m.isValidOutput output = true then gainToDb (m.outputLevels output) else -100

/-- `MatrixMixer::setInputMute`, MatrixMixer.cpp lines 139-143. -/
def MatrixMixer.setInputMute (m : MatrixMixer) (input : ℤ) (muted : Bool) : MatrixMixer :=
  if m.isValidInput input = true then
    { m with inputMutes := fun i => if i = input then muted else m.inputMutes i }
  else m

/-- `MatrixMixer::setOutputMute`, MatrixMixer.cpp lines 145-149. -/
def MatrixMixer.setOutputMute (m : MatrixMixer) (output : ℤ) (muted : Bool) : MatrixMixer :=
  if m.isValidOutput output = true then
    { m with outputMutes := fun o => if o = output then muted else m.outputMutes o }
  else m

/-- `MatrixMixer::setOutputSolo`, MatrixMixer.cpp lines 157-161. -/
def MatrixMixer.setOutputSolo (m : MatrixMixer) (output : ℤ) (soloed : Bool) : MatrixMixer :=
  if m.isValidOutput output = true then
    { m with outputSolos := fun o => if o = output then soloed else m.outputSolos o }
  else m

/-- `MatrixMixer::isInputMuted`, MatrixMixer.cpp lines 163-166: out-of-range
inputs read back as muted. -/
def MatrixMixer.isInputMuted (m : MatrixMixer) (input : ℤ) : Bool :=
  if m.isValidInput input = true then m.inputMutes input else true

/-- `MatrixMixer::isOutputMuted`, MatrixMixer.cpp lines 168-171. -/
def MatrixMixer.isOutputMuted (m : MatrixMixer) (output : ℤ) : Bool :=
  if m.isValidOutput output = true then m.outputMutes output else true

/-- `MatrixMixer::isInputSoloed`, MatrixMixer.cpp lines 173-176: out-of-range
inputs read back as not soloed. -/
def MatrixMixer.isInputSoloed (m : MatrixMixer) (input : ℤ) : Bool :=
  if m.isValidInput input = true then m.inputSolos input else false

/-- `MatrixMixer::isOutputSoloed`, MatrixMixer.cpp lines 178-181. -/
def MatrixMixer.isOutputSoloed (m : MatrixMixer) (output : ℤ) : Bool :=
  if m.isValidOutput output = true then m.outputSolos output else false

/-- The `anySoloedInputs` scan in MatrixMixer.cpp lines 201-208 and 283-290. -/
def anySoloedInputs (m : MatrixMixer) : Bool :=
  (List.range m.numInputChannels).any fun i => m.inputSolos (i : ℤ)

/-- The `anySoloedOutputs` scan in MatrixMixer.cpp lines 210-217 and 292-299. -/
def anySoloedOutputs (m : MatrixMixer) : Bool :=
  (List.range m.numOutputChannels).any fun o => m.outputSolos (o : ℤ)

/-- `MatrixMixer::calculateGain`, MatrixMixer.cpp lines 270-314: the effective
gain a given input contributes to a given output, 0 when the route is
excluded by validity, mute or solo state. -/
def MatrixMixer.calculateGain (m : MatrixMixer) (input output : ℤ) : ℝ :=
  if ¬ (m.isValidInput input = true ∧ m.isValidOutput output = true) then 0
  else if m.inputMutes input = true ∨ m.outputMutes output = true then 0
  else if anySoloedInputs m = true ∧ m.inputSolos input = false then 0
  else if anySoloedOutputs m = true ∧ m.outputSolos output = false then 0
  else m.inputLevels input * m.crosspoints input output * m.outputLevels output * m.mainLevel

/-- One summand of the accumulation loop in `MatrixMixer::processAudio`,
MatrixMixer.cpp lines 220-267: the value input channel `i` adds to output
channel `o` at frame `s` (the `continue` chain made explicit; the unity-gain
fast path at lines 256-260 adds the same value as the general path). -/
def mixTerm (m : MatrixMixer) (inputBuf : ℕ → ℕ → ℝ) (i : ℕ) (o : ℕ) (s : ℕ) : ℝ :=
  if m.inputMutes (i : ℤ) = true then 0
  else if anySoloedInputs m = true ∧ m.inputSolos (i : ℤ) = false then 0
  else if m.outputMutes (o : ℤ) = true then 0
  else if anySoloedOutputs m = true ∧ m.outputSolos (o : ℤ) = false then 0
  else if m.crosspoints (i : ℤ) (o : ℤ) = 0 then 0
  else
    let totalGain := m.inputLevels (i : ℤ) * m.crosspoints (i : ℤ) (o : ℤ) *
      m.outputLevels (o : ℤ) * m.mainLevel
    if totalGain = 0 then 0 else totalGain * inputBuf i s

/-- `MatrixMixer::processAudio`, MatrixMixer.cpp lines 183-268: value of
output channel `o` at frame `s` after the call, for the processed region
(`s < numSamples`; the region is cleared first, then contributions of the
first `min numInputChannels numInputBufCh` input channels are accumulated
into the first `min numOutputChannels numOutputBufCh` output channels). -/
def MatrixMixer.processAudio (m : MatrixMixer) (inputBuf : ℕ → ℕ → ℝ)
    (numInputBufCh numOutputBufCh numSamples : ℕ) : ℕ → ℕ → ℝ :=
  let availableInputs := min m.numInputChannels numInputBufCh
  let availableOutputs := min m.numOutputChannels numOutputBufCh
  fun o s =>
    if o < availableOutputs ∧ s < numSamples then
      if availableInputs = 0 ∨ availableOutputs = 0 then 0
      else ∑ i ∈ Finset.range availableInputs, mixTerm m inputBuf i o s
    else 0

/-! ## OutputPatch (OutputPatch.cpp) -/

/-- `juce::jlimit(lower, upper, value)`: the value clamped into
`[lower, upper]`. -/
def jlimit (lower upper value : ℝ) : ℝ :=
  max lower (min upper value)

/-- `juce::Decibels::decibelsToGain` with the default -100 dB floor, used by
`OutputPatch::dBToLinear`, OutputPatch.cpp lines 184-187:
`decibels > -100 ? pow(10, decibels * 0.05) : 0`. -/
def dBToLinear (dB : ℝ) : ℝ :=
  if dB > -100 then (10 : ℝ) ^ (dB * (5 / 100)) else 0

/-- State of an `OutputPatch`: a fixed 64 (cue outputs) × 32 (device outputs)
routing matrix of atomics with per-device-output level and mute
(`MAX_CUE_OUTPUTS = 64`, `MAX_DEVICE_OUTPUTS = 32` from OutputPatch.h). -/
structure OutputPatch where
  patchMatrix : ℤ → ℤ → ℝ
  deviceOutputLevels : ℤ → ℝ
  deviceOutputMutes : ℤ → Bool

/-- Index bound of the patch matrix rows (cue outputs). -/
def MAX_CUE_OUTPUTS : ℕ := 64

/-- Index bound of the patch matrix columns (device outputs). -/
def MAX_DEVICE_OUTPUTS : ℕ := 32

/-- `OutputPatch::setPatchRouting`, OutputPatch.cpp lines 61-67: on valid
indices stores the linear level clamped into `[0, 4]` (the comment in the
source reads "Max +12dB"). -/
def OutputPatch.setPatchRouting (p : OutputPatch) (cueOutput deviceOutput : ℤ)
    (level : ℝ) : OutputPatch :=
  if 0 ≤ cueOutput ∧ cueOutput < (MAX_CUE_OUTPUTS : ℤ) ∧
      0 ≤ deviceOutput ∧ deviceOutput < (MAX_DEVICE_OUTPUTS : ℤ) then
    { p with patchMatrix := fun c d =>
        if c = cueOutput ∧ d = deviceOutput then jlimit 0 4 level else p.patchMatrix c d }
  else p

/-- `OutputPatch::setDeviceOutputLevel`, OutputPatch.cpp lines 92-97. -/
def OutputPatch.setDeviceOutputLevel (p : OutputPatch) (deviceOutput : ℤ)
    (level : ℝ) : OutputPatch :=
  if 0 ≤ deviceOutput ∧ deviceOutput < (MAX_DEVICE_OUTPUTS : ℤ) then
    { p with deviceOutputLevels := fun d =>
        if d = deviceOutput then jlimit 0 4 level else p.deviceOutputLevels d }
  else p

/-- `OutputPatch::clearAllRouting`, OutputPatch.cpp lines 83-90. -/
def OutputPatch.clearAllRouting (p : OutputPatch) : OutputPatch :=
  { p with patchMatrix := fun _ _ => 0 }

/-- The 1:1 loop of `OutputPatch::setDirectRouting`, OutputPatch.cpp lines
126-130: `setPatchRouting(ch, ch, 1.0f)` for `ch < k`. -/
def directRoutingLoop (p : OutputPatch) : ℕ → OutputPatch
  | 0 => p
  | k + 1 => (directRoutingLoop p k).setPatchRouting (k : ℤ) (k : ℤ) 1

/-- `OutputPatch::setDirectRouting`, OutputPatch.cpp lines 122-131:
`maxChannels = jmin(MAX_CUE_OUTPUTS, MAX_DEVICE_OUTPUTS) = 32`. -/
def OutputPatch.setDirectRouting (p : OutputPatch) : OutputPatch :=
  directRoutingLoop p.clearAllRouting (min MAX_CUE_OUTPUTS MAX_DEVICE_OUTPUTS)

/-- The `OutputPatch()` constructor, OutputPatch.cpp lines 3-20: zeroed
matrix, unit levels, unmuted, then `setDirectRouting()`. -/
def mkOutputPatch : OutputPatch :=
  OutputPatch.setDirectRouting
    { patchMatrix := fun _ _ => 0
      deviceOutputLevels := fun _ => 1
      deviceOutputMutes := fun _ => false }

/-- `OutputPatch::processAudioBlock`, OutputPatch.cpp lines 26-59: value of
device output channel `d` at frame `s` after the call.  Device buffers are
cleared first; each unmuted device output below
`min numDeviceOutputs MAX_DEVICE_OUTPUTS` accumulates
`patchLevel * deviceLevel * cueSample` over the cue outputs whose patch level
exceeds the 0.0001 threshold. -/
def OutputPatch.processAudioBlock (p : OutputPatch) (cueOutputs : ℕ → ℕ → ℝ)
    (numCueOutputs numDeviceOutputs numSamples : ℕ) : ℕ → ℕ → ℝ :=
  fun d s =>
    if d < min numDeviceOutputs MAX_DEVICE_OUTPUTS ∧ s < numSamples ∧
        p.deviceOutputMutes (d : ℤ) = false then
      ∑ c ∈ Finset.range (min numCueOutputs MAX_CUE_OUTPUTS),
        (if p.patchMatrix (c : ℤ) (d : ℤ) ≤ 1 / 10000 then 0
         else p.patchMatrix (c : ℤ) (d : ℤ) * p.deviceOutputLevels (d : ℤ) * cueOutputs c s)
    else 0

/-! ## AudioCue (AudioCue.cpp) -/

/-- `AudioCue::State`. -/
inductive CueState where
  | Stopped
  | Loading
  | Playing
  | Paused
deriving DecidableEq

/-- The `juce::LinearSmoothedValue<float> volumeFader` member: a linear ramp
toward a target value, advanced one step per `getNextValue()` call.
`rampLengthSamples` is the `stepsToTarget` set by `reset(sampleRate, seconds)`
and `countdown` the remaining steps of the current ramp. -/
structure Fader where
  currentValue : ℝ
  targetValue : ℝ
  step : ℝ
  countdown : ℕ
  rampLengthSamples : ℕ

/-- `SmoothedValue::setCurrentAndTargetValue(v)`: jumps to `v` and cancels any
ramp in progress. -/
def Fader.setCurrentAndTargetValue (f : Fader) (v : ℝ) : Fader :=
  { f with currentValue := v, targetValue := v, countdown := 0 }

/-- `SmoothedValue::setTargetValue(v)`: a no-op when `v` is already the
target; with a zero ramp length it jumps immediately; otherwise it starts a
linear ramp of `rampLengthSamples` steps from the current value to `v`. -/
def Fader.setTargetValue (f : Fader) (v : ℝ) : Fader :=
  if v = f.targetValue then f
  else if f.rampLengthSamples = 0 then f.setCurrentAndTargetValue v
  else
    { f with targetValue := v, countdown := f.rampLengthSamples,
             step := (v - f.currentValue) / (f.rampLengthSamples : ℝ) }

/-- `SmoothedValue::getNextValue()`: the returned sample value and the
advanced fader state. -/
def Fader.next (f : Fader) : ℝ × Fader :=
  if f.countdown = 0 then (f.targetValue, f)
  else
    let cv := f.currentValue + f.step
    (cv, { f with currentValue := cv, countdown := f.countdown - 1 })

/-- `n` consecutive `getNextValue()` calls. -/
def Fader.run (f : Fader) : ℕ → Fader
  | 0 => f
  | n + 1 => (Fader.run f n).next.2

/-- The fader state after `volumeFader.reset(44100, 0.1)` followed by
`setCurrentAndTargetValue(1.0f)` in the `AudioCue` constructor, AudioCue.cpp
lines 9-10: ramp length `0.1 * 44100 = 4410` samples, value 1. -/
def initialFader : Fader :=
  { currentValue := 1, targetValue := 1, step := 0, countdown := 0,
    rampLengthSamples := 4410 }

/-- The immutable decoded audio of a loaded cue (the `audioBuffer` contents
plus the reader metadata): channel count, frame count, sample rate and the
sample data. -/
structure AudioData where
  numChannels : ℕ
  numSamples : ℕ
  sampleRate : ℝ
  samples : ℕ → ℕ → ℝ

/-- State of a `CueForge::AudioCue` (AudioCue.cpp).  `audio = none` models
`audioBuffer == nullptr` (nothing loaded); `currentPosition` is the atomic
double playback cursor in samples. -/
structure AudioCue where
  cueId : String
  filePath : String
  audio : Option AudioData
  cueMatrix : MatrixMixer
  currentState : CueState
  currentPosition : ℝ
  shouldPlay : Bool
  loop : Bool
  masterVolume : ℝ
  volumeFader : Fader

/-- `AudioCue::isLoaded`: audio data is present. -/
def AudioCue.isLoaded (c : AudioCue) : Bool :=
  c.audio.isSome

/-- The sample rate used by `AudioCue::play`, AudioCue.cpp line 100:
`audioReader ? audioReader->sampleRate : 44100.0`. -/
def AudioCue.readerSampleRate (c : AudioCue) : ℝ :=
  match c.audio with
  | some a => a.sampleRate
  | none => 44100

/-- `AudioCue::play(startTime, volume)`, AudioCue.cpp lines 87-110: fails
(cue unchanged) unless loaded; otherwise records the master volume, retargets
the volume fader to `volume`, stores the cursor `startTime * sampleRate`,
sets `shouldPlay` and enters `Playing`. -/
def AudioCue.play (c : AudioCue) (startTime volume : ℝ) : Bool × AudioCue :=
  if c.isLoaded = false then (false, c)
  else
    (true,
      { c with
        masterVolume := volume
        volumeFader := c.volumeFader.setTargetValue volume
        currentPosition := startTime * c.readerSampleRate
        shouldPlay := true
        currentState := CueState.Playing })

/-- `AudioCue::stop(fadeTime)`, AudioCue.cpp lines 112-136: a no-op when
already `Stopped`; otherwise clears `shouldPlay` and, with `fadeTime > 0`,
only retargets the fader to 0 (the source comments "Note: In a real
implementation, you'd want to stop when fade completes" — no pending stop is
recorded and the state is left as it was); with `fadeTime ≤ 0` it zeroes the
fader, resets the cursor and enters `Stopped`. -/
def AudioCue.stop (c : AudioCue) (fadeTime : ℝ) : Bool × AudioCue :=
  if c.currentState = CueState.Stopped then (true, c)
  else if fadeTime > 0 then
    (true, { c with shouldPlay := false, volumeFader := c.volumeFader.setTargetValue 0 })
  else
    (true,
      { c with
        shouldPlay := false
        volumeFader := c.volumeFader.setCurrentAndTargetValue 0
        currentPosition := 0
        currentState := CueState.Stopped })

/-- `AudioCue::pause`, AudioCue.cpp lines 138-149. -/
def AudioCue.pause (c : AudioCue) : Bool × AudioCue :=
  if c.currentState ≠ CueState.Playing then (false, c)
  else (true, { c with shouldPlay := false, currentState := CueState.Paused })

/-- `AudioCue::resume`, AudioCue.cpp lines 151-162. -/
def AudioCue.resume (c : AudioCue) : Bool × AudioCue :=
  if c.currentState ≠ CueState.Paused then (false, c)
  else (true, { c with shouldPlay := true, currentState := CueState.Playing })

/-- Value returned by the `k`-th `getNextValue()` call on a fader (calls are
numbered from 1).  In `AudioCue::processAudio` the first call's value is the
unused `currentVolume` (AudioCue.cpp line 245) and frame `s` is scaled by
call number `s + 2` (line 248). -/
def faderValueAt (f : Fader) (k : ℕ) : ℝ :=
  (Fader.run f k).next.1

/-- The tail of `AudioCue::processAudio` from line 229 on, after the
position/loop handling resolved to cursor `pos`: reads up to `numSamples`
frames from `pos`, scales frame `s` by the fader (call `s + 2`), mixes the
result through the cue matrix into a buffer of `outChans` channels, and
advances the cursor by the frames consumed.  The fader consumes
`numSamples + 1` steps. -/
def AudioCue.processFrom (c : AudioCue) (a : AudioData) (pos : ℝ)
    (outChans numSamples : ℕ) : (ℕ → ℕ → ℝ) × AudioCue :=
  let posInt : ℤ := ⌊pos⌋
  let samplesToRead : ℤ := min (numSamples : ℤ) ((a.numSamples : ℤ) - posInt)
  if samplesToRead ≤ 0 then (fun _ _ => 0, { c with currentPosition := pos })
  else
    let fileBuf : ℕ → ℕ → ℝ := fun ch s =>
      if ch < a.numChannels ∧ (s : ℤ) < samplesToRead then
        a.samples ch (posInt + (s : ℤ)).toNat
      else 0
    let faded : ℕ → ℕ → ℝ := fun ch s => fileBuf ch s * faderValueAt c.volumeFader (s + 1)
    (MatrixMixer.processAudio c.cueMatrix faded a.numChannels outChans numSamples,
      { c with
        currentPosition := pos + (samplesToRead : ℝ)
        volumeFader := c.volumeFader.run (numSamples + 1) })

/-- `AudioCue::processAudio(buffer, 0, numSamples)`, AudioCue.cpp lines
203-260, for a destination buffer of `outChans` channels: returns the buffer
contents after the call together with the updated cue.  The buffer is cleared
first; unless the cue is loaded, `shouldPlay` is set and the state is
`Playing`, nothing further happens.  At end of file the cue either loops back
to 0 or performs `stop(0)`. -/
def AudioCue.processAudio (c : AudioCue) (outChans numSamples : ℕ) :
    (ℕ → ℕ → ℝ) × AudioCue :=
  if c.isLoaded = false ∨ c.shouldPlay = false ∨ c.currentState ≠ CueState.Playing then
    (fun _ _ => 0, c)
  else
    match c.audio with
    | none => (fun _ _ => 0, c)
    | some a =>
      if c.currentPosition ≥ (a.numSamples : ℝ) then
        if c.loop = true then c.processFrom a 0 outChans numSamples
        else (fun _ _ => 0, (c.stop 0).2)
      else c.processFrom a c.currentPosition outChans numSamples

/-- `n` consecutive audio-callback renders of a cue (each one
`AudioCue::processAudio` over a block of `numSamples` frames into `outChans`
channels), keeping only the cue state. -/
def renderSteps (outChans numSamples : ℕ) (c : AudioCue) : ℕ → AudioCue
  | 0 => c
  | n + 1 => (AudioCue.processAudio (renderSteps outChans numSamples c n) outChans numSamples).2

/-- The identity-routing loop of `AudioCue::loadAudioFile`, AudioCue.cpp
lines 68-71: `setCrosspoint(ch, ch, 0.0f)` (unity, 0 dB) for each file
channel `ch < k`. -/
def identityRoutingLoop (m : MatrixMixer) : ℕ → MatrixMixer
  | 0 => m
  | k + 1 => (identityRoutingLoop m k).setCrosspoint (k : ℤ) (k : ℤ) 0

/-- `AudioCue::loadAudioFile`, AudioCue.cpp lines 23-85.  The JUCE file
lookup and format reader are external collaborators, modelled by the decoder
function `fs : String → Option AudioData` (`none` covers both a missing file
and an undecodable format).  On failure the state reverts to `Stopped` and
nothing else changes; on success the decoded audio is stored, the cue matrix
is resized to `numChannels × 64` with 1:1 unity routing for the first
`min numChannels 64` channels, the path is recorded and the cursor reset. -/
def AudioCue.loadAudioFile (fs : String → Option AudioData) (c : AudioCue)
    (path : String) : Bool × AudioCue :=
  let c1 := { c with currentState := CueState.Loading }
  match fs path with
  | none => (false, { c1 with currentState := CueState.Stopped })
  | some a =>
    (true,
      { c1 with
        audio := some a
        cueMatrix := identityRoutingLoop
          (c1.cueMatrix.setSize (a.numChannels : ℤ) 64) (min a.numChannels 64)
        filePath := path
        currentPosition := 0
        currentState := CueState.Stopped })

/-- The `AudioCue(id, filePath)` constructor, AudioCue.cpp lines 6-16:
member initialisers (`cueMatrix(0, 64)`, state `Stopped`, default fader),
then `loadAudioFile(filePath)` when the path is nonempty. -/
def mkAudioCue (fs : String → Option AudioData) (id path : String) : AudioCue :=
  let base : AudioCue :=
    { cueId := id
      filePath := path
      audio := none
      cueMatrix := mkMatrixMixer 0 64
      currentState := CueState.Stopped
      currentPosition := 0
      shouldPlay := false
      loop := false
      masterVolume := 1
      volumeFader := initialFader }
  if path = "" then base else (base.loadAudioFile fs path).2

/-! ## AudioEngine cue registry (AudioEngine.cpp) -/

/-- The engine's cue registry `std::map<std::string, std::unique_ptr<AudioCue>>`,
modelled as an association list with unique keys. -/
def CueRegistry : Type := List (String × AudioCue)

/-- `AudioEngine::findCue`, AudioEngine.cpp lines 483-488. -/
def findCue (reg : CueRegistry) (cueId : String) : Option AudioCue :=
  match reg with
  | [] => none
  | (k, v) :: rest => if k = cueId then some v else findCue rest cueId

/-- `cues[cueId] = std::move(cue)` (`std::map::operator[]` insert-or-assign),
AudioEngine.cpp line 221. -/
def storeCue (reg : CueRegistry) (cueId : String) (c : AudioCue) : CueRegistry :=
  match reg with
  | [] => [(cueId, c)]
  | (k, v) :: rest =>
    if k = cueId then (cueId, c) :: rest else (k, v) :: storeCue rest cueId c

/-- `AudioEngine::createAudioCue`, AudioEngine.cpp lines 205-233: constructs
and loads the cue; when the load failed, returns the error message and leaves
the registry unchanged; otherwise stores the cue under its id (an existing
cue with the same id is replaced — there is no duplicate-id check) and
returns the empty string. -/
def createAudioCue (fs : String → Option AudioData) (reg : CueRegistry)
    (cueId filePath : String) : String × CueRegistry :=
  let cue := mkAudioCue fs cueId filePath
  if cue.isLoaded = false then
    ("Failed to load audio file: " ++ filePath, reg)
  else
    ("", storeCue reg cueId cue)

/-- `AudioEngine::playCue`, AudioEngine.cpp lines 235-247: unknown ids return
false with the registry unchanged, otherwise delegate to `AudioCue::play`.
(The third parameter is named `volume` and is forwarded to `play`.) -/
def playCue (reg : CueRegistry) (cueId : String) (startTime volume : ℝ) :
    Bool × CueRegistry :=
  match findCue reg cueId with
  | none => (false, reg)
  | some c =>
    let r := c.play startTime volume
    (r.1, storeCue reg cueId r.2)

/-- `AudioEngine::stopCue`, AudioEngine.cpp lines 249-261. -/
def stopCue (reg : CueRegistry) (cueId : String) (fadeTime : ℝ) :
    Bool × CueRegistry :=
  match findCue reg cueId with
  | none => (false, reg)
  | some c =>
    let r := c.stop fadeTime
    (r.1, storeCue reg cueId r.2)

/-- `AudioEngine::pauseCue`, AudioEngine.cpp lines 263-271. -/
def pauseCue (reg : CueRegistry) (cueId : String) : Bool × CueRegistry :=
  match findCue reg cueId with
  | none => (false, reg)
  | some c =>
    let r := c.pause
    (r.1, storeCue reg cueId r.2)

/-- `AudioEngine::resumeCue`, AudioEngine.cpp lines 273-281. -/
def resumeCue (reg : CueRegistry) (cueId : String) : Bool × CueRegistry :=
  match findCue reg cueId with
  | none => (false, reg)
  | some c =>
    let r := c.resume
    (r.1, storeCue reg cueId r.2)

/-! ## CommandProcessor (CommandProcessor.cpp) -/

/-- A `juce::var` JSON value as used by the command boundary.  Numbers are
modelled as rationals (JSON numerals). -/
inductive JValue where
  | boolean : Bool → JValue
  | intNum : ℤ → JValue
  | num : ℚ → JValue
  | str : String → JValue
  | obj : List (String × JValue) → JValue

/-- A response `juce::DynamicObject` as built by `createErrorResponse` /
`createSuccessResponse`: its property list in insertion order. -/
def Response : Type := List (String × JValue)

/-- `var::getProperty` on an object's property list. -/
def getProperty (fields : List (String × JValue)) (name : String) : Option JValue :=
  match fields with
  | [] => none
  | (k, v) :: rest => if k = name then some v else getProperty rest name

/-- `var::toString` as exercised at this boundary (string-valued properties;
the void var stringifies to the empty string).  The claims only pass string
command names and cue ids through it. -/
def varToString (v : Option JValue) : String :=
  match v with
  | some (JValue.str s) => s
  | _ => ""

/-- Numeric parameter extraction with a default, as in
`params.getProperty("startTime", 0.0)` followed by double conversion. -/
def varToNum (v : Option JValue) (dflt : ℚ) : ℚ :=
  match v with
  | some (JValue.num x) => x
  | some (JValue.intNum n) => (n : ℚ)
  | _ => dflt

/-- Property lookup on a params var: `none` unless the var is an object. -/
def getParam (params : Option JValue) (name : String) : Option JValue :=
  match params with
  | some (JValue.obj fields) => getProperty fields name
  | _ => none

/-- `CommandProcessor::validateParameters`, CommandProcessor.cpp lines
439-452: the params var must be an object carrying every required property. -/
def validateParameters (params : Option JValue) (required : List String) : Bool :=
  match params with
  | some (JValue.obj fields) => required.all fun r => (getProperty fields r).isSome
  | _ => false

/-- `CommandProcessor::createErrorResponse`, CommandProcessor.cpp lines
420-427: the flat failure envelope
`{success: false, error: <message>, code: <int>}` (the `code` parameter
defaults to -1 at every call site exercised here). -/
def createErrorResponse (message : String) (code : ℤ) : Response :=
  [("success", JValue.boolean false), ("error", JValue.str message),
   ("code", JValue.intNum code)]

/-- `CommandProcessor::createSuccessResponse`, CommandProcessor.cpp lines
429-437: `{success: true}` plus a `data` property when a non-void value is
supplied. -/
def createSuccessResponse (data : Option JValue) : Response :=
  match data with
  | some d => [("success", JValue.boolean true), ("data", d)]
  | none => [("success", JValue.boolean true)]

/-- `CommandProcessor::handlePlayCue`, CommandProcessor.cpp lines 204-220:
with no engine, the "AudioEngine not available" error; with a missing
`cueId`, a validation error; otherwise the boolean result of
`AudioEngine::playCue` wrapped by `createSuccessResponse`. -/
def handlePlayCue (eng : Option CueRegistry) (params : Option JValue) :
    Response × Option CueRegistry :=
  match eng with
  | none => (createErrorResponse "AudioEngine not available" (-1), none)
  | some reg =>
    if validateParameters params ["cueId"] = false then
      (createErrorResponse "Missing required parameter: cueId" (-1), some reg)
    else
      let cueId := varToString (getParam params "cueId")
      let startTime := varToNum (getParam params "startTime") 0
      let fadeInTime := varToNum (getParam params "fadeInTime") 0
      let r := playCue reg cueId (startTime : ℝ) (fadeInTime : ℝ)
      (createSuccessResponse (some (JValue.boolean r.1)), some r.2)

/-- `CommandProcessor::handleStopCue`, CommandProcessor.cpp lines 222-237. -/
def handleStopCue (eng : Option CueRegistry) (params : Option JValue) :
    Response × Option CueRegistry :=
  match eng with
  | none => (createErrorResponse "AudioEngine not available" (-1), none)
  | some reg =>
    if validateParameters params ["cueId"] = false then
      (createErrorResponse "Missing required parameter: cueId" (-1), some reg)
    else
      let cueId := varToString (getParam params "cueId")
      let fadeOutTime := varToNum (getParam params "fadeOutTime") 0
      let r := stopCue reg cueId (fadeOutTime : ℝ)
      (createSuccessResponse (some (JValue.boolean r.1)), some r.2)

/-- `CommandProcessor::handlePauseCue`, CommandProcessor.cpp lines 239-252. -/
def handlePauseCue (eng : Option CueRegistry) (params : Option JValue) :
    Response × Option CueRegistry :=
  match eng with
  | none => (createErrorResponse "AudioEngine not available" (-1), none)
  | some reg =>
    if validateParameters params ["cueId"] = false then
      (createErrorResponse "Missing required parameter: cueId" (-1), some reg)
    else
      let cueId := varToString (getParam params "cueId")
      let r := pauseCue reg cueId
      (createSuccessResponse (some (JValue.boolean r.1)), some r.2)

/-- `CommandProcessor::handleResumeCue`, CommandProcessor.cpp lines 254-267. -/
def handleResumeCue (eng : Option CueRegistry) (params : Option JValue) :
    Response × Option CueRegistry :=
  match eng with
  | none => (createErrorResponse "AudioEngine not available" (-1), none)
  | some reg =>
    if validateParameters params ["cueId"] = false then
      (createErrorResponse "Missing required parameter: cueId" (-1), some reg)
    else
      let cueId := varToString (getParam params "cueId")
      let r := resumeCue reg cueId
      (createSuccessResponse (some (JValue.boolean r.1)), some r.2)

/-- The command names registered by
`CommandProcessor::registerBuiltInCommands`, CommandProcessor.cpp lines
68-97 (the keys of the `commandHandlers` map). -/
def registeredCommands : List String :=
  ["initialize", "shutdown", "getStatus", "setAudioDevice", "getDevices",
   "createCue", "loadFile", "playCue", "stopCue", "pauseCue", "resumeCue",
   "stopAllCues", "setCrosspoint", "getCrosspoint", "setInputLevel",
   "setOutputLevel", "muteOutput", "soloOutput", "setPatchRouting",
   "getPatchRouting"]

/-- `CommandProcessor::processCommand(const var&)`, CommandProcessor.cpp
lines 25-48: rejects non-objects and empty command names, answers an
unregistered name with
`createErrorResponse("Unknown command: " + commandName)`, and otherwise
invokes the registered handler on the `params` property.  The handler table
entries are abstracted by `run` (each registered name is bound to the
corresponding `handle…` member). -/
def processCommand (run : String → Option JValue → Response)
    (command : JValue) : Response :=
  match command with
  | JValue.obj fields =>
    let commandName := varToString (getProperty fields "command")
    if commandName = "" then createErrorResponse "Missing command name" (-1)
    else if registeredCommands.contains commandName then
      run commandName (getProperty fields "params")
    else createErrorResponse ("Unknown command: " ++ commandName) (-1)
  | _ => createErrorResponse "Command must be an object" (-1)

/-! ## Example states used by the theorems -/

/-- The device patch of testable-properties Scenario B: the constructor state
with crosspoint (0,0) set to unity and device output level 0 set to -100 dB
(converted through `OutputPatch::dBToLinear`). -/
def scenarioBPatch : OutputPatch :=
  (mkOutputPatch.setPatchRouting 0 0 1).setDeviceOutputLevel 0 (dBToLinear (-100))

/-- A decoded two-channel, five-second 44100 Hz file of DC-1 samples. -/
def exampleAudio : AudioData :=
  { numChannels := 2, numSamples := 220500, sampleRate := 44100,
    samples := fun _ _ => 1 }

/-- A decoder in which every path decodes to `exampleAudio`. -/
def exampleFS : String → Option AudioData := fun _ => some exampleAudio

/-- A freshly constructed, successfully loaded cue. -/
def loadedCue : AudioCue := mkAudioCue exampleFS "c1" "show.wav"

/-- `loadedCue` after `play(0, 1)`: a playing cue at gain 1. -/
def playingCue : AudioCue := (loadedCue.play 0 1).2

/-- A registry already holding a cue under id "c1". -/
def exampleRegistry : CueRegistry := [("c1", mkAudioCue exampleFS "c1" "old.wav")]

/-- A cue constructed with an empty path: nothing loaded. -/
def emptyCue : AudioCue := mkAudioCue (fun _ => none) "e" ""

/-- A 1×1 matrix state with output 0 soloed and every crosspoint zero. -/
def mixEx7 : MatrixMixer :=
  { numInputChannels := 1, numOutputChannels := 1
    crosspoints := fun _ _ => 0
    inputLevels := fun _ => 1, outputLevels := fun _ => 1, mainLevel := 1
    inputMutes := fun _ => false, outputMutes := fun _ => false
    inputSolos := fun _ => false, outputSolos := fun o => decide (o = 0) }

/-- A 1×1 matrix state with no mutes or solos and a unity crosspoint. -/
def mixEx4 : MatrixMixer :=
  { numInputChannels := 1, numOutputChannels := 1
    crosspoints := fun _ _ => 1
    inputLevels := fun _ => 1, outputLevels := fun _ => 1, mainLevel := 1
    inputMutes := fun _ => false, outputMutes := fun _ => false
    inputSolos := fun _ => false, outputSolos := fun _ => false }

/-- A 1×1 matrix state with input 0 and output 0 muted. -/
def mixExMuted : MatrixMixer :=
  { numInputChannels := 1, numOutputChannels := 1
    crosspoints := fun _ _ => 1
    inputLevels := fun _ => 1, outputLevels := fun _ => 1, mainLevel := 1
    inputMutes := fun _ => true, outputMutes := fun _ => true
    inputSolos := fun _ => false, outputSolos := fun _ => false }

/-- The unknown-command request of the testable properties:
`{"command": "doesNotExist"}`. -/
def unknownCommand : JValue := JValue.obj [("command", JValue.str "doesNotExist")]

/-- Params var `{cueId: "ghost"}` naming an unregistered cue. -/
def ghostParams : Option JValue := some (JValue.obj [("cueId", JValue.str "ghost")])

/-- The error-envelope shape asserted by the spec for an unknown command: a
nested `error` object carrying `code` and `message` fields. -/
def errorIsObjectWithCodeAndMessage (r : Response) : Bool :=
  match getProperty r "error" with
  | some (JValue.obj ef) => (getProperty ef "code").isSome && (getProperty ef "message").isSome
  | _ => false

/-! ## Helper lemmas -/

/-- `dbToGain` inverts through `gainToDb` exactly on `[-100, ∞)`. -/
theorem gainToDb_dbToGain (db : ℝ) (h : -100 ≤ db) : gainToDb (dbToGain db) = db := by
  by_cases hdb : db ≤ -100
  · have heq : db = -100 := le_antisymm hdb h
    subst heq
    simp [dbToGain, gainToDb]
  · push_neg at hdb
    have hpos : (0 : ℝ) < (10 : ℝ) ^ (db / 20) :=
      Real.rpow_pos_of_pos (by norm_num) _
    rw [dbToGain, if_neg (not_le.mpr hdb), gainToDb, if_neg (not_le.mpr hpos),
      Real.logb_rpow (by norm_num) (by norm_num)]
    ring

/-- `dbToGain` only produces nonnegative linear gains. -/
theorem dbToGain_nonneg (db : ℝ) : 0 ≤ dbToGain db := by
  rw [dbToGain]
  split
  · exact le_refl 0
  · exact Real.rpow_nonneg (by norm_num) _

/-- `jlimit 0 4` lands in `[0, 4]`. -/
theorem jlimit_mem (v : ℝ) : 0 ≤ jlimit 0 4 v ∧ jlimit 0 4 v ≤ 4 :=
  ⟨le_max_left 0 _, max_le (by norm_num) (min_le_left 4 v)⟩

/-- `directRoutingLoop` touches only the patch matrix. -/
theorem directRoutingLoop_mutes_levels (p : OutputPatch) (n : ℕ) :
    (directRoutingLoop p n).deviceOutputMutes = p.deviceOutputMutes ∧
    (directRoutingLoop p n).deviceOutputLevels = p.deviceOutputLevels := by
  induction n with
  | zero => exact ⟨rfl, rfl⟩
  | succ k ih =>
    rw [directRoutingLoop, OutputPatch.setPatchRouting]
    split
    · exact ih
    · exact ih

/-- `AudioCue::processAudio` with `shouldPlay` cleared: the cleared buffer is
returned and the cue is unchanged. -/
theorem processAudio_of_not_shouldPlay (c : AudioCue) (h : c.shouldPlay = false)
    (outChans numSamples : ℕ) :
    c.processAudio outChans numSamples = (fun _ _ => 0, c) := by
  rw [AudioCue.processAudio, if_pos]
  right; left; exact h

/-- A single mix-loop summand equals `calculateGain` times the input sample,
for in-range channel indices. -/
theorem mixTerm_eq_calculateGain (m : MatrixMixer) (inputBuf : ℕ → ℕ → ℝ)
    (i o s : ℕ) (hi : i < m.numInputChannels) (ho : o < m.numOutputChannels) :
    mixTerm m inputBuf i o s = m.calculateGain (i : ℤ) (o : ℤ) * inputBuf i s := by
  have hvi : m.isValidInput (i : ℤ) = true := by
    rw [MatrixMixer.isValidInput, decide_eq_true_eq]
    exact ⟨Int.ofNat_nonneg i, by exact_mod_cast hi⟩
  have hvo : m.isValidOutput (o : ℤ) = true := by
    rw [MatrixMixer.isValidOutput, decide_eq_true_eq]
    exact ⟨Int.ofNat_nonneg o, by exact_mod_cast ho⟩
  by_cases him : m.inputMutes (i : ℤ) = true
  · simp [mixTerm, MatrixMixer.calculateGain, hvi, hvo, him]
  · by_cases hsi : anySoloedInputs m = true ∧ m.inputSolos (i : ℤ) = false
    · simp [mixTerm, MatrixMixer.calculateGain, hvi, hvo, him, hsi]
    · by_cases hom : m.outputMutes (o : ℤ) = true
      · simp [mixTerm, MatrixMixer.calculateGain, hvi, hvo, him, hsi, hom]
      · by_cases hso : anySoloedOutputs m = true ∧ m.outputSolos (o : ℤ) = false
        · simp [mixTerm, MatrixMixer.calculateGain, hvi, hvo, him, hsi, hom, hso]
        · by_cases hx : m.crosspoints (i : ℤ) (o : ℤ) = 0
          · simp [mixTerm, MatrixMixer.calculateGain, hvi, hvo, him, hsi, hom, hso, hx]
          · by_cases ht : m.inputLevels (i : ℤ) * m.crosspoints (i : ℤ) (o : ℤ) *
                m.outputLevels (o : ℤ) * m.mainLevel = 0
            · simp [mixTerm, MatrixMixer.calculateGain, hvi, hvo, him, hsi, hom, hso, hx, ht]
            · simp [mixTerm, MatrixMixer.calculateGain, hvi, hvo, him, hsi, hom, hso, hx, ht]

/-- The per-sample output of `MatrixMixer::processAudio` is the sum of
`calculateGain`-weighted input samples, for an output channel inside the
processed range. -/
theorem processAudio_eq_sum (m : MatrixMixer) (inputBuf : ℕ → ℕ → ℝ)
    (numInputBufCh numOutputBufCh numSamples o s : ℕ)
    (ho : o < min m.numOutputChannels numOutputBufCh) (hs : s < numSamples) :
    m.processAudio inputBuf numInputBufCh numOutputBufCh numSamples o s =
      ∑ i ∈ Finset.range (min m.numInputChannels numInputBufCh),
        m.calculateGain (i : ℤ) (o : ℤ) * inputBuf i s := by
  rw [MatrixMixer.processAudio]
  simp only [if_pos (And.intro ho hs)]
  by_cases hz : min m.numInputChannels numInputBufCh = 0 ∨
      min m.numOutputChannels numOutputBufCh = 0
  · rcases hz with hz | hz
    · rw [if_pos (Or.inl hz), hz]
      simp
    · omega
  · rw [if_neg hz]
    refine Finset.sum_congr rfl fun i hmem => ?_
    rw [Finset.mem_range] at hmem
    exact mixTerm_eq_calculateGain m inputBuf i o s
      (lt_of_lt_of_le hmem (min_le_left _ _))
      (lt_of_lt_of_le ho (min_le_left _ _))

/-- A params object carrying a property passes single-field validation. -/
theorem validateParameters_single (params : Option JValue) (n : String) (v : JValue)
    (h : getParam params n = some v) : validateParameters params [n] = true := by
  match params with
  | none => simp [getParam] at h
  | some (JValue.boolean b) => simp [getParam] at h
  | some (JValue.intNum k) => simp [getParam] at h
  | some (JValue.num q) => simp [getParam] at h
  | some (JValue.str s) => simp [getParam] at h
  | some (JValue.obj fields) =>
    rw [getParam] at h
    simp [validateParameters, h]

/-- `setCrosspoint` does not change the channel-count bounds. -/
theorem setCrosspoint_isValidInput (m : MatrixMixer) (input output : ℤ) (x : ℝ)
    (y : ℤ) : (m.setCrosspoint input output x).isValidInput y = m.isValidInput y := by
  rw [MatrixMixer.setCrosspoint]
  split <;> rfl

/-- `setCrosspoint` does not change the channel-count bounds. -/
theorem setCrosspoint_isValidOutput (m : MatrixMixer) (input output : ℤ) (x : ℝ)
    (y : ℤ) : (m.setCrosspoint input output x).isValidOutput y = m.isValidOutput y := by
  rw [MatrixMixer.setCrosspoint]
  split <;> rfl

/-- On valid indices, `setCrosspoint` stores exactly `dbToGain levelDb`. -/
theorem setCrosspoint_value (m : MatrixMixer) (input output : ℤ) (db : ℝ)
    (h : m.isValidInput input = true ∧ m.isValidOutput output = true) :
    (m.setCrosspoint input output db).crosspoints input output = dbToGain db := by
  rw [MatrixMixer.setCrosspoint, if_pos h]
  simp

/-- On a valid index, `setInputLevel` stores exactly `dbToGain levelDb`. -/
theorem setInputLevel_value (m : MatrixMixer) (input : ℤ) (db : ℝ)
    (h : m.isValidInput input = true) :
    (m.setInputLevel input db).inputLevels input = dbToGain db := by
  rw [MatrixMixer.setInputLevel, if_pos h]
  simp

/-- On a valid index, `setOutputLevel` stores exactly `dbToGain levelDb`. -/
theorem setOutputLevel_value (m : MatrixMixer) (output : ℤ) (db : ℝ)
    (h : m.isValidOutput output = true) :
    (m.setOutputLevel output db).outputLevels output = dbToGain db := by
  rw [MatrixMixer.setOutputLevel, if_pos h]
  simp

/-- On valid indices, `setPatchRouting` stores the clamped level. -/
theorem setPatchRouting_value (p : OutputPatch) (c d : ℤ) (lvl : ℝ)
    (h : 0 ≤ c ∧ c < (MAX_CUE_OUTPUTS : ℤ) ∧ 0 ≤ d ∧ d < (MAX_DEVICE_OUTPUTS : ℤ)) :
    (p.setPatchRouting c d lvl).patchMatrix c d = jlimit 0 4 lvl := by
  rw [OutputPatch.setPatchRouting, if_pos h]
  simp

/-- On a valid index, `setDeviceOutputLevel` stores the clamped level. -/
theorem setDeviceOutputLevel_value (p : OutputPatch) (d : ℤ) (lvl : ℝ)
    (h : 0 ≤ d ∧ d < (MAX_DEVICE_OUTPUTS : ℤ)) :
    (p.setDeviceOutputLevel d lvl).deviceOutputLevels d = jlimit 0 4 lvl := by
  rw [OutputPatch.setDeviceOutputLevel, if_pos h]
  simp

/-- `setPatchRouting` leaves the device output mutes unchanged. -/
theorem setPatchRouting_mutes (p : OutputPatch) (c d : ℤ) (lvl : ℝ) :
    (p.setPatchRouting c d lvl).deviceOutputMutes = p.deviceOutputMutes := by
  rw [OutputPatch.setPatchRouting]
  split <;> rfl

/-- `setDeviceOutputLevel` leaves the device output mutes unchanged. -/
theorem setDeviceOutputLevel_mutes (p : OutputPatch) (d : ℤ) (lvl : ℝ) :
    (p.setDeviceOutputLevel d lvl).deviceOutputMutes = p.deviceOutputMutes := by
  rw [OutputPatch.setDeviceOutputLevel]
  split <;> rfl

/-- Scenario B state: device output 0 is unmuted and its level is zero. -/
theorem scenarioBPatch_level_mute :
    scenarioBPatch.deviceOutputLevels 0 = 0 ∧ scenarioBPatch.deviceOutputMutes 0 = false := by
  have hlin : dBToLinear (-100) = 0 := by
    rw [dBToLinear, if_neg (by norm_num : ¬((-100 : ℝ) > -100))]
  constructor
  · rw [scenarioBPatch, setDeviceOutputLevel_value _ _ _
      (And.intro (le_refl (0 : ℤ)) (by norm_num [MAX_DEVICE_OUTPUTS])), hlin]
    norm_num [jlimit]
  · rw [scenarioBPatch, setDeviceOutputLevel_mutes, setPatchRouting_mutes, mkOutputPatch,
      OutputPatch.setDirectRouting, (directRoutingLoop_mutes_levels _ _).1]
    rfl

/-! ## Claims -/

/-- C4: after setting the device-patch crosspoint (0,0) to unity and then the
device output level 0 to -100 dB, device channel 0 receives only zero samples
from `OutputPatch::processAudioBlock`, despite the unity crosspoint. -/
theorem c4_output_level_silences_channel (cueOutputs : ℕ → ℕ → ℝ)
    (numCueOutputs numDeviceOutputs numSamples s : ℕ) :
    scenarioBPatch.processAudioBlock cueOutputs numCueOutputs numDeviceOutputs
      numSamples 0 s = 0 := by
  rw [OutputPatch.processAudioBlock]
  simp only [Nat.cast_zero]
  split
  · refine Finset.sum_eq_zero fun c _ => ?_
    split
    · rfl
    · rw [scenarioBPatch_level_mute.1]
      ring
  · rfl

/-- C6: for valid indices and any `dB ∈ [-100, 12]`, `setCrosspoint` followed
by `getCrosspoint` recovers the dB value (exactly, in the real-number model
of the float computation). -/
theorem c6_crosspoint_roundtrip (m : MatrixMixer) (input output : ℤ) (db : ℝ)
    (hvi : m.isValidInput input = true) (hvo : m.isValidOutput output = true)
    (hlo : -100 ≤ db) (_hhi : db ≤ 12) :
    (m.setCrosspoint input output db).getCrosspoint input output = db := by
  rw [MatrixMixer.getCrosspoint, setCrosspoint_isValidInput, setCrosspoint_isValidOutput,
    if_pos (And.intro hvi hvo), setCrosspoint_value m input output db ⟨hvi, hvo⟩]
  exact gainToDb_dbToGain db hlo

/-- Witness for C6 at the 2×2 constructor state, crosspoint (0,0), 0 dB. -/
theorem c6_witness :
    ((mkMatrixMixer 2 2).setCrosspoint 0 0 0).getCrosspoint 0 0 = 0 :=
  c6_crosspoint_roundtrip (mkMatrixMixer 2 2) 0 0 0 (by decide) (by decide)
    (by norm_num) (by norm_num)

/-- C9 (counterexample): `MatrixMixer::setCrosspoint` performs no upper
clamping — +20 dB stores the linear gain 10, strictly above
`dbToGain 12 ≈ 3.98`, contradicting the claimed `[0, gain(+12dB)]` bound. -/
theorem c9_counterexample :
    ((mkMatrixMixer 1 1).setCrosspoint 0 0 20).crosspoints 0 0 = 10 ∧
    dbToGain 12 < 10 := by
  constructor
  · rw [setCrosspoint_value (mkMatrixMixer 1 1) 0 0 20 ⟨by decide, by decide⟩,
      dbToGain, if_neg (by norm_num), show ((20 : ℝ) / 20) = 1 by norm_num, Real.rpow_one]
  · rw [dbToGain, if_neg (by norm_num)]
    have h1 : (10 : ℝ) ^ ((12 : ℝ) / 20) < 10 ^ (1 : ℝ) :=
      Real.rpow_lt_rpow_of_exponent_lt (by norm_num) (by norm_num)
    rwa [Real.rpow_one] at h1

/-- C9 (amended): the `MatrixMixer` setters store `dbToGain` values, which
are nonnegative but not clamped above; the `OutputPatch` setters clamp their
stored levels into `[0, 4]`. -/
theorem c9_amended (m : MatrixMixer) (input output : ℤ) (db : ℝ)
    (p : OutputPatch) (c d : ℤ) (lvl : ℝ)
    (hvi : m.isValidInput input = true) (hvo : m.isValidOutput output = true)
    (hc : 0 ≤ c ∧ c < (MAX_CUE_OUTPUTS : ℤ)) (hd : 0 ≤ d ∧ d < (MAX_DEVICE_OUTPUTS : ℤ)) :
    0 ≤ (m.setCrosspoint input output db).crosspoints input output ∧
    0 ≤ (m.setInputLevel input db).inputLevels input ∧
    0 ≤ (m.setOutputLevel output db).outputLevels output ∧
    0 ≤ (m.setMainLevel db).mainLevel ∧
    (0 ≤ (p.setPatchRouting c d lvl).patchMatrix c d ∧
      (p.setPatchRouting c d lvl).patchMatrix c d ≤ 4) ∧
    (0 ≤ (p.setDeviceOutputLevel d lvl).deviceOutputLevels d ∧
      (p.setDeviceOutputLevel d lvl).deviceOutputLevels d ≤ 4) := by
  refine ⟨?_, ?_, ?_, ?_, ?_, ?_⟩
  · rw [setCrosspoint_value m input output db ⟨hvi, hvo⟩]
    exact dbToGain_nonneg db
  · rw [setInputLevel_value m input db hvi]
    exact dbToGain_nonneg db
  · rw [setOutputLevel_value m output db hvo]
    exact dbToGain_nonneg db
  · exact dbToGain_nonneg db
  · rw [setPatchRouting_value p c d lvl ⟨hc.1, hc.2, hd.1, hd.2⟩]
    exact jlimit_mem lvl
  · rw [setDeviceOutputLevel_value p d lvl hd]
    exact jlimit_mem lvl

/-- Witness for C9 (amended) at concrete states, +20 dB and linear level 9. -/
theorem c9_witness :
    0 ≤ ((mkMatrixMixer 1 1).setCrosspoint 0 0 20).crosspoints 0 0 ∧
    0 ≤ ((mkMatrixMixer 1 1).setInputLevel 0 20).inputLevels 0 ∧
    0 ≤ ((mkMatrixMixer 1 1).setOutputLevel 0 20).outputLevels 0 ∧
    0 ≤ ((mkMatrixMixer 1 1).setMainLevel 20).mainLevel ∧
    (0 ≤ (mkOutputPatch.setPatchRouting 0 0 9).patchMatrix 0 0 ∧
      (mkOutputPatch.setPatchRouting 0 0 9).patchMatrix 0 0 ≤ 4) ∧
    (0 ≤ (mkOutputPatch.setDeviceOutputLevel 0 9).deviceOutputLevels 0 ∧
      (mkOutputPatch.setDeviceOutputLevel 0 9).deviceOutputLevels 0 ≤ 4) :=
  c9_amended (mkMatrixMixer 1 1) 0 0 20 mkOutputPatch 0 0 9
    (by decide) (by decide) (by decide) (by decide)

/-- C10: the matrix query functions answer out-of-range indices with fixed
defaults — muted reads answer `true`, soloed reads `false`, level reads
`-100 dB` — and, being pure functions of the state, modify nothing. -/
theorem c10_invalid_index_defaults (m : MatrixMixer) (input output : ℤ)
    (hi : m.isValidInput input = false) (ho : m.isValidOutput output = false) :
    m.isInputMuted input = true ∧ m.isOutputMuted output = true ∧
    m.isInputSoloed input = false ∧ m.isOutputSoloed output = false ∧
    m.getInputLevel input = -100 ∧ m.getOutputLevel output = -100 := by
  simp [MatrixMixer.isInputMuted, MatrixMixer.isOutputMuted, MatrixMixer.isInputSoloed,
    MatrixMixer.isOutputSoloed, MatrixMixer.getInputLevel, MatrixMixer.getOutputLevel, hi, ho]

/-- Witness for C10 at a 2×2 state with indices 5 and -1. -/
theorem c10_witness :
    (mkMatrixMixer 2 2).isInputMuted 5 = true ∧
    (mkMatrixMixer 2 2).isOutputMuted (-1) = true ∧
    (mkMatrixMixer 2 2).isInputSoloed 5 = false ∧
    (mkMatrixMixer 2 2).isOutputSoloed (-1) = false ∧
    (mkMatrixMixer 2 2).getInputLevel 5 = -100 ∧
    (mkMatrixMixer 2 2).getOutputLevel (-1) = -100 :=
  c10_invalid_index_defaults (mkMatrixMixer 2 2) 5 (-1) (by decide) (by decide)

/-- C1 (code bug): `stop(f)` with `f > 0` on a playing cue only clears
`shouldPlay` and retargets the fader to 0.  No pending stop is recorded:
every subsequent render returns the cue unchanged (its state stays `Playing`
forever, never reaching `Stopped`) and produces only zero samples — the fade
ramp is never applied to any output.  The source itself notes at
AudioCue.cpp line 123 that a real implementation would stop when the fade
completes. -/
theorem c1_stop_with_fade_never_finalizes (c : AudioCue) (f : ℝ)
    (outChans numSamples : ℕ)
    (hplay : c.currentState = CueState.Playing) (hf : 0 < f) :
    ((c.stop f).2.currentState = CueState.Playing ∧
     (c.stop f).2.shouldPlay = false ∧
     (c.stop f).2.volumeFader = c.volumeFader.setTargetValue 0) ∧
    ∀ n : ℕ, renderSteps outChans numSamples (c.stop f).2 n = (c.stop f).2 ∧
      ((renderSteps outChans numSamples (c.stop f).2 n).processAudio outChans
        numSamples).1 = fun _ _ => 0 := by
  have hstop : (c.stop f).2 =
      { c with shouldPlay := false, volumeFader := c.volumeFader.setTargetValue 0 } := by
    rw [AudioCue.stop, if_neg (by rw [hplay]; decide), if_pos hf]
  have hsp : (c.stop f).2.shouldPlay = false := by rw [hstop]
  have hfix : ∀ k, renderSteps outChans numSamples (c.stop f).2 k = (c.stop f).2 := by
    intro k
    induction k with
    | zero => rfl
    | succ j ih =>
      rw [renderSteps, ih, processAudio_of_not_shouldPlay _ hsp]
  constructor
  · rw [hstop]
    exact ⟨hplay, rfl, rfl⟩
  · intro n
    refine ⟨hfix n, ?_⟩
    rw [hfix n, processAudio_of_not_shouldPlay _ hsp]

/-- Witness for C1 on a concrete playing cue, 87 rendered blocks of 512
frames (more than 44100 samples). -/
theorem c1_witness :
    ((playingCue.stop 1).2.currentState = CueState.Playing ∧
     (playingCue.stop 1).2.shouldPlay = false ∧
     (playingCue.stop 1).2.volumeFader = playingCue.volumeFader.setTargetValue 0) ∧
    (renderSteps 64 512 (playingCue.stop 1).2 87 = (playingCue.stop 1).2 ∧
      ((renderSteps 64 512 (playingCue.stop 1).2 87).processAudio 64 512).1 =
        fun _ _ => 0) :=
  ⟨(c1_stop_with_fade_never_finalizes playingCue 1 64 512 rfl (by norm_num)).1,
   (c1_stop_with_fade_never_finalizes playingCue 1 64 512 rfl (by norm_num)).2 87⟩

/-- C2 (counterexample): `play(0, 2)` on a freshly loaded cue does not
install a fade ramp from 0 to 1 over `2 * 44100 = 88200` samples.  The
second parameter is a target volume: the fader ramps from its current value
1 toward 2 over its fixed 4410-sample (100 ms) ramp. -/
theorem c2_counterexample :
    (loadedCue.play 0 2).2.volumeFader.currentValue = 1 ∧
    (loadedCue.play 0 2).2.volumeFader.currentValue ≠ 0 ∧
    (loadedCue.play 0 2).2.volumeFader.targetValue = 2 ∧
    (loadedCue.play 0 2).2.volumeFader.targetValue ≠ 1 ∧
    (loadedCue.play 0 2).2.volumeFader.countdown = 4410 ∧
    ((loadedCue.play 0 2).2.volumeFader.countdown : ℝ) ≠ 2 * 44100 := by
  have hplay : (loadedCue.play 0 2).2.volumeFader = loadedCue.volumeFader.setTargetValue 2 := by
    rw [AudioCue.play, if_neg (by decide)]
  have hset : loadedCue.volumeFader.setTargetValue 2 =
      { currentValue := 1, targetValue := 2, step := (2 - 1) / ((4410 : ℕ) : ℝ),
        countdown := 4410, rampLengthSamples := 4410 } := by
    have hfad : loadedCue.volumeFader = initialFader := rfl
    rw [hfad, Fader.setTargetValue, if_neg (by norm_num [initialFader]),
      if_neg (by norm_num [initialFader])]
    simp [initialFader]
  rw [hplay, hset]
  refine ⟨rfl, by norm_num, rfl, by norm_num, rfl, by push_cast; norm_num⟩

/-- C2 (amended): `play(startTime, v)` requires a loaded cue (otherwise it
fails and leaves the cue unchanged); on success it sets the cursor to
`startTime * sampleRate`, enters `Playing`, records `v` as the master volume
and retargets the volume fader to `v` (a ramp from the fader's current value
over its fixed 100 ms ramp length — not a 0→1 ramp over
`fadeInTime * sampleRate` samples). -/
theorem c2_amended (c : AudioCue) (startTime volume : ℝ) :
    (c.isLoaded = false → c.play startTime volume = (false, c)) ∧
    (c.isLoaded = true →
      (c.play startTime volume).1 = true ∧
      (c.play startTime volume).2.currentPosition = startTime * c.readerSampleRate ∧
      (c.play startTime volume).2.currentState = CueState.Playing ∧
      (c.play startTime volume).2.masterVolume = volume ∧
      (c.play startTime volume).2.volumeFader = c.volumeFader.setTargetValue volume) := by
  constructor
  · intro h
    rw [AudioCue.play, if_pos h]
  · intro h
    rw [AudioCue.play, if_neg (by rw [h]; decide)]
    exact ⟨rfl, rfl, rfl, rfl, rfl⟩

/-- Witness for C2 (amended): an unloaded cue fails; a loaded cue plays. -/
theorem c2_witness :
    (emptyCue.play 0 1 = (false, emptyCue)) ∧
    ((loadedCue.play 0 2).1 = true ∧
     (loadedCue.play 0 2).2.currentPosition = 0 * loadedCue.readerSampleRate ∧
     (loadedCue.play 0 2).2.currentState = CueState.Playing ∧
     (loadedCue.play 0 2).2.masterVolume = 2 ∧
     (loadedCue.play 0 2).2.volumeFader = loadedCue.volumeFader.setTargetValue 2) :=
  ⟨(c2_amended emptyCue 0 1).1 rfl, (c2_amended loadedCue 0 2).2 rfl⟩

/-- C5 (counterexample): `createAudioCue` does not reject an id that is
already registered — with "c1" present in the registry, creating "c1" again
succeeds (empty error string) and replaces the registered cue. -/
theorem c5_counterexample :
    (findCue exampleRegistry "c1").isSome = true ∧
    (createAudioCue exampleFS exampleRegistry "c1" "new.wav").1 = "" ∧
    (createAudioCue exampleFS exampleRegistry "c1" "new.wav").2 =
      [("c1", mkAudioCue exampleFS "c1" "new.wav")] :=
  ⟨rfl, rfl, rfl⟩

/-- C5 (amended): `createAudioCue` fails exactly when the load fails, and
then leaves the registry unchanged; when the load succeeds it returns the
empty error string and stores the new cue under the id, replacing any
existing entry (duplicate ids are not rejected). -/
theorem c5_amended (fs : String → Option AudioData) (reg : CueRegistry)
    (cueId filePath : String) :
    ((mkAudioCue fs cueId filePath).isLoaded = false →
      createAudioCue fs reg cueId filePath =
        ("Failed to load audio file: " ++ filePath, reg)) ∧
    ((mkAudioCue fs cueId filePath).isLoaded = true →
      (createAudioCue fs reg cueId filePath).1 = "" ∧
      (createAudioCue fs reg cueId filePath).2 =
        storeCue reg cueId (mkAudioCue fs cueId filePath)) := by
  constructor
  · intro h
    simp [createAudioCue, h]
  · intro h
    simp [createAudioCue, h]

/-- Witness for C5 (amended): a failing decoder leaves the registry alone; a
succeeding one stores the cue. -/
theorem c5_witness :
    createAudioCue (fun _ => none) ([] : CueRegistry) "cx" "missing.wav" =
      ("Failed to load audio file: " ++ "missing.wav", ([] : CueRegistry)) ∧
    ((createAudioCue exampleFS ([] : CueRegistry) "cy" "a.wav").1 = "" ∧
     (createAudioCue exampleFS ([] : CueRegistry) "cy" "a.wav").2 =
       storeCue ([] : CueRegistry) "cy" (mkAudioCue exampleFS "cy" "a.wav")) :=
  ⟨(c5_amended (fun _ => none) ([] : CueRegistry) "cx" "missing.wav").1 rfl,
   (c5_amended exampleFS ([] : CueRegistry) "cy" "a.wav").2 rfl⟩

/-- C3 (counterexample): a `playCue` command naming an unregistered cue id is
answered with the success envelope `{success: true, data: false}` — not with
a structured failure envelope. -/
theorem c3_counterexample :
    handlePlayCue (some ([] : CueRegistry)) ghostParams =
      ([("success", JValue.boolean true), ("data", JValue.boolean false)],
        some ([] : CueRegistry)) ∧
    getProperty (handlePlayCue (some ([] : CueRegistry)) ghostParams).1 "success" =
      some (JValue.boolean true) :=
  ⟨rfl, rfl⟩

/-- C3 (amended): for an unregistered cue id, the engine-level operations
return `false` (a recoverable not-found, registry unchanged), and the
playCue/stopCue/pauseCue/resumeCue handlers wrap that boolean in
`{success: true, data: false}`; no failure envelope with an error code is
produced. -/
theorem c3_amended (reg : CueRegistry) (params : Option JValue) (cueId : String)
    (hparam : getParam params "cueId" = some (JValue.str cueId))
    (hfind : findCue reg cueId = none) :
    (∀ startTime volume : ℝ, playCue reg cueId startTime volume = (false, reg)) ∧
    (∀ fadeTime : ℝ, stopCue reg cueId fadeTime = (false, reg)) ∧
    pauseCue reg cueId = (false, reg) ∧
    resumeCue reg cueId = (false, reg) ∧
    handlePlayCue (some reg) params =
      (createSuccessResponse (some (JValue.boolean false)), some reg) ∧
    handleStopCue (some reg) params =
      (createSuccessResponse (some (JValue.boolean false)), some reg) ∧
    handlePauseCue (some reg) params =
      (createSuccessResponse (some (JValue.boolean false)), some reg) ∧
    handleResumeCue (some reg) params =
      (createSuccessResponse (some (JValue.boolean false)), some reg) := by
  have hval := validateParameters_single params "cueId" _ hparam
  have hstr : varToString (getParam params "cueId") = cueId := by
    rw [hparam, varToString]
  refine ⟨?_, ?_, ?_, ?_, ?_, ?_, ?_, ?_⟩
  · intro startTime volume
    simp [playCue, hfind]
  · intro fadeTime
    simp [stopCue, hfind]
  · simp [pauseCue, hfind]
  · simp [resumeCue, hfind]
  · simp [handlePlayCue, hval, hstr, playCue, hfind]
  · simp [handleStopCue, hval, hstr, stopCue, hfind]
  · simp [handlePauseCue, hval, hstr, pauseCue, hfind]
  · simp [handleResumeCue, hval, hstr, resumeCue, hfind]

/-- Witness for C3 (amended) on the empty registry and cue id "ghost". -/
theorem c3_witness :
    playCue ([] : CueRegistry) "ghost" 0 0 = (false, ([] : CueRegistry)) ∧
    stopCue ([] : CueRegistry) "ghost" 0 = (false, ([] : CueRegistry)) ∧
    pauseCue ([] : CueRegistry) "ghost" = (false, ([] : CueRegistry)) ∧
    resumeCue ([] : CueRegistry) "ghost" = (false, ([] : CueRegistry)) ∧
    handlePlayCue (some ([] : CueRegistry)) ghostParams =
      (createSuccessResponse (some (JValue.boolean false)), some ([] : CueRegistry)) ∧
    handleStopCue (some ([] : CueRegistry)) ghostParams =
      (createSuccessResponse (some (JValue.boolean false)), some ([] : CueRegistry)) ∧
    handlePauseCue (some ([] : CueRegistry)) ghostParams =
      (createSuccessResponse (some (JValue.boolean false)), some ([] : CueRegistry)) ∧
    handleResumeCue (some ([] : CueRegistry)) ghostParams =
      (createSuccessResponse (some (JValue.boolean false)), some ([] : CueRegistry)) := by
  have h := c3_amended ([] : CueRegistry) ghostParams "ghost" rfl rfl
  exact ⟨h.1 0 0, h.2.1 0, h.2.2.1, h.2.2.2.1, h.2.2.2.2.1, h.2.2.2.2.2.1,
    h.2.2.2.2.2.2.1, h.2.2.2.2.2.2.2⟩

/-- C7 (counterexample): the claimed solo exclusivity fails in its "exactly"
direction — in `mixEx7`, output 0 is soloed and unmuted, yet no input makes
`calculateGain` nonzero (every crosspoint is zero), so it carries no
signal. -/
theorem c7_counterexample :
    ¬ (∀ m : MatrixMixer,
        (anySoloedOutputs m = true →
          ∀ o : ℤ, m.isValidOutput o = true →
            ((∃ i : ℤ, m.calculateGain i o ≠ 0) ↔
              (m.outputSolos o = true ∧ m.outputMutes o = false))) ∧
        (anySoloedOutputs m = false →
          ∀ o : ℤ, m.isValidOutput o = true → m.outputMutes o = false →
            (∃ i : ℤ, m.isValidInput i = true ∧ m.inputMutes i = false ∧
              m.crosspoints i o ≠ 0) →
            (∃ i : ℤ, m.calculateGain i o ≠ 0)) ∧
        (∀ i o : ℤ, m.inputMutes i = true → m.calculateGain i o = 0)) := by
  intro h
  have hany : anySoloedInputs mixEx7 = false := by decide
  have h1 := (h mixEx7).1 (by decide) 0 (by decide)
  obtain ⟨i, hi⟩ := h1.mpr ⟨by decide, by decide⟩
  apply hi
  rw [MatrixMixer.calculateGain]
  by_cases hv : mixEx7.isValidInput i = true ∧ mixEx7.isValidOutput 0 = true
  · rw [if_neg (not_not_intro hv), if_neg (by simp [mixEx7])]
    rw [if_neg (by rintro ⟨ha, _⟩; rw [hany] at ha; exact absurd ha (by decide))]
    by_cases hso : anySoloedOutputs mixEx7 = true ∧ mixEx7.outputSolos 0 = false
    · rw [if_pos hso]
    · rw [if_neg hso]
      show mixEx7.inputLevels i * mixEx7.crosspoints i 0 * mixEx7.outputLevels 0 *
        mixEx7.mainLevel = 0
      simp [mixEx7]
  · rw [if_pos hv]

/-- C7 (amended): in the matrix mix, a muted input contributes zero gain to
every output; with any output soloed, a non-soloed or muted output gets zero
gain from every input; a muted output always gets zero; an admitted
input/output pair (valid, unmuted, not excluded by input or output solo)
carries exactly `inputLevel · crosspoint · outputLevel · mainLevel`, which is
nonzero precisely when every factor is; and the per-sample output of
`processAudio` is the sum of these `calculateGain` contributions. -/
theorem c7_amended (m : MatrixMixer) (input output : ℤ)
    (inputBuf : ℕ → ℕ → ℝ) (numInputBufCh numOutputBufCh numSamples o s : ℕ) :
    (m.inputMutes input = true → m.calculateGain input output = 0) ∧
    (anySoloedOutputs m = true →
      (m.outputSolos output = false ∨ m.outputMutes output = true) →
      m.calculateGain input output = 0) ∧
    (m.outputMutes output = true → m.calculateGain input output = 0) ∧
    (m.isValidInput input = true → m.isValidOutput output = true →
      m.inputMutes input = false → m.outputMutes output = false →
      (anySoloedInputs m = true → m.inputSolos input = true) →
      (anySoloedOutputs m = true → m.outputSolos output = true) →
      m.calculateGain input output =
        m.inputLevels input * m.crosspoints input output * m.outputLevels output *
          m.mainLevel) ∧
    (o < min m.numOutputChannels numOutputBufCh → s < numSamples →
      m.processAudio inputBuf numInputBufCh numOutputBufCh numSamples o s =
        ∑ i ∈ Finset.range (min m.numInputChannels numInputBufCh),
          m.calculateGain (i : ℤ) (o : ℤ) * inputBuf i s) := by
  refine ⟨?_, ?_, ?_, ?_,
    fun ho hs => processAudio_eq_sum m inputBuf numInputBufCh numOutputBufCh numSamples o s ho hs⟩
  · intro hmute
    rw [MatrixMixer.calculateGain]
    by_cases hv : m.isValidInput input = true ∧ m.isValidOutput output = true
    · rw [if_neg (not_not_intro hv), if_pos (Or.inl hmute)]
    · rw [if_pos hv]
  · intro hany hex
    rw [MatrixMixer.calculateGain]
    by_cases hv : m.isValidInput input = true ∧ m.isValidOutput output = true
    · rw [if_neg (not_not_intro hv)]
      by_cases hmor : m.inputMutes input = true ∨ m.outputMutes output = true
      · rw [if_pos hmor]
      · rw [if_neg hmor]
        by_cases hsi : anySoloedInputs m = true ∧ m.inputSolos input = false
        · rw [if_pos hsi]
        · rw [if_neg hsi]
          rcases hex with hex | hex
          · rw [if_pos ⟨hany, hex⟩]
          · exact absurd (Or.inr hex) hmor
    · rw [if_pos hv]
  · intro hmute
    rw [MatrixMixer.calculateGain]
    by_cases hv : m.isValidInput input = true ∧ m.isValidOutput output = true
    · rw [if_neg (not_not_intro hv), if_pos (Or.inr hmute)]
    · rw [if_pos hv]
  · intro hvi hvo him hom hsi hso
    rw [MatrixMixer.calculateGain, if_neg (not_not_intro ⟨hvi, hvo⟩),
      if_neg (by simp [him, hom]),
      if_neg (by rintro ⟨ha, hb⟩; rw [hsi ha] at hb; exact absurd hb (by decide)),
      if_neg (by rintro ⟨ha, hb⟩; rw [hso ha] at hb; exact absurd hb (by decide))]

/-- Witness for C7 (amended): a muted pair contributes zero; a fully
admitted unity pair carries the gain product; the rendered sample matches the
`calculateGain` sum. -/
theorem c7_witness :
    mixExMuted.calculateGain 0 0 = 0 ∧
    mixEx4.calculateGain 0 0 =
      mixEx4.inputLevels 0 * mixEx4.crosspoints 0 0 * mixEx4.outputLevels 0 *
        mixEx4.mainLevel ∧
    mixEx4.processAudio (fun _ _ => 1) 1 1 1 0 0 =
      ∑ i ∈ Finset.range (min mixEx4.numInputChannels 1),
        mixEx4.calculateGain (i : ℤ) 0 * 1 := by
  refine ⟨?_, ?_, ?_⟩
  · exact (c7_amended mixExMuted 0 0 (fun _ _ => 1) 1 1 1 0 0).1 (by decide)
  · exact (c7_amended mixEx4 0 0 (fun _ _ => 1) 1 1 1 0 0).2.2.2.1
      (by decide) (by decide) rfl rfl (by decide) (by decide)
  · exact (c7_amended mixEx4 0 0 (fun _ _ => 1) 1 1 1 0 0).2.2.2.2
      (by decide) (by decide)

/-- C8 (amended): `{"command": "doesNotExist"}` is answered by the flat
envelope `{success: false, error: "Unknown command: doesNotExist", code: -1}`
— the `error` property is the message string and `code` the numeric default
-1, whatever the registered handlers do. -/
theorem c8_amended (run : String → Option JValue → Response) :
    processCommand run unknownCommand =
      [("success", JValue.boolean false),
       ("error", JValue.str "Unknown command: doesNotExist"),
       ("code", JValue.intNum (-1))] :=
  rfl

/-- C8 (counterexample): the unknown-command response does have
`success: false`, but its `error` property is a plain string — not a nested
object with `code` and `message` fields, and no "UNKNOWN_COMMAND" code
exists anywhere in it. -/
theorem c8_counterexample :
    getProperty (processCommand (fun _ _ => []) unknownCommand) "success" =
      some (JValue.boolean false) ∧
    errorIsObjectWithCodeAndMessage (processCommand (fun _ _ => []) unknownCommand) =
      false ∧
    getProperty (processCommand (fun _ _ => []) unknownCommand) "error" =
      some (JValue.str "Unknown command: doesNotExist") :=
  ⟨rfl, rfl, rfl⟩

end

end CueForge
